import Mathlib

/-!
# Verification of the swingbot Realtime Exchange Gateway

A shallow embedding of the gateway core of `src/backend/src/index.js`
(the `TradingServer` subscription hub and the `PionexClient` REST /
WebSocket client) together with proofs of the specified properties.

Conventions of the embedding:
* JavaScript numbers that are used as non-negative integers (retry
  counts, delays, timestamps, HTTP status codes) become `Nat`.
* A JS `Set` of strings becomes a duplicate-free `List String`
  manipulated through `setAdd` / `setDelete` mirroring `Set.add` /
  `Set.delete`.
* A field that may be `undefined` becomes an `Option`.
* A JS function that may `throw` becomes a function into `Except`.
* The external HMAC-SHA256 primitive (`crypto.createHmac`) is passed in
  as a function parameter: its internals are outside the repository.
* Asynchronous sleeps and `setTimeout` schedules are recorded in the
  result (a list of delays in milliseconds) instead of being performed.
-/

namespace Swingbot

/-! ## PionexClient.executeWithRetry / isRetryableError

`executeWithRetry(requestFn, attempt = 1)` from
`src/backend/src/index.js` (PionexClient): try the request; on success
return its data; on failure rethrow when `attempt >= maxRetries`,
otherwise when retryable sleep `retryDelay * backoffMultiplier^(attempt-1)`
and recurse with `attempt + 1`, else rethrow. -/

/-- The outcome of one HTTP attempt, as seen by the error handler:
either no response was received at all (network error / timeout) or the
server responded with an error status code. -/
inductive HttpError where
  | noResponse
  | status (code : Nat)
deriving DecidableEq, Repr

/-- `PionexClient.isRetryableError`: retry on network errors (no
response), on status ≥ 500, and on status 429. -/
def isRetryableError : HttpError → Bool
  | .noResponse => true
  | .status code => decide (500 ≤ code) || decide (code = 429)

/-- Trace of one `executeWithRetry` run: the final result, how many
times `requestFn` was invoked, and the backoff sleeps performed (in
order, in milliseconds). -/
structure RetryTrace (α : Type) where
  result : Except HttpError α
  attempts : Nat
  delays : List Nat
deriving Repr

/-- `PionexClient.executeWithRetry`.  `req k` is the outcome of the
`k`-th invocation of `requestFn` (attempt numbering starts at 1, as in
the source). -/
def executeWithRetry (maxRetries retryDelay backoffMultiplier : Nat)
    (req : Nat → Except HttpError α) (attempt : Nat) : RetryTrace α :=
  match req attempt with
  | .ok v => { result := .ok v, attempts := 1, delays := [] }
  | .error e =>
    if _h : maxRetries ≤ attempt then
      { result := .error e, attempts := 1, delays := [] }
    else if isRetryableError e then
      let delay := retryDelay * backoffMultiplier ^ (attempt - 1)
      let rest := executeWithRetry maxRetries retryDelay backoffMultiplier req (attempt + 1)
      { result := rest.result, attempts := rest.attempts + 1,
        delays := delay :: rest.delays }
    else
      { result := .error e, attempts := 1, delays := [] }
termination_by maxRetries - attempt

/-- Helper: the run of `executeWithRetry` when every attempt fails with
the same retryable error, started at attempt `a ≥ 1` with `n` further
attempts allowed (`maxRetries = a + n`). -/
theorem executeWithRetry_const_retryable (rd bm : Nat) (e : HttpError)
    (he : isRetryableError e = true) :
    ∀ n a, 1 ≤ a →
      executeWithRetry (α := α) (a + n) rd bm (fun _ => .error e) a =
        { result := .error e, attempts := n + 1,
          delays := (List.range n).map (fun i => rd * bm ^ (a - 1 + i)) } := by
  intro n
  induction n with
  | zero =>
    intro a ha
    rw [executeWithRetry]
    simp
  | succ n ih =>
    intro a ha
    rw [executeWithRetry]
    have hlt : ¬ (a + (n + 1) ≤ a) := by omega
    have harr : a + (n + 1) = (a + 1) + n := by omega
    simp only [hlt, dif_neg, not_false_iff, he, if_true]
    rw [harr, ih (a + 1) (by omega)]
    simp only [RetryTrace.mk.injEq, true_and]
    rw [List.range_succ_eq_map, List.map_cons, List.map_map]
    congr 1
    apply List.map_congr_left
    intro i _
    simp only [Function.comp_apply]
    have hx : a + 1 - 1 + i = a - 1 + (i + 1) := by omega
    rw [hx]

/-- C1: a REST call whose every attempt fails with HTTP 503 (retryable)
is attempted exactly `maxRetries` times, the delay awaited before
attempt `k` (`k ≥ 2`) is `retryDelay * backoffMultiplier ^ (k - 2)`
(the `i`-th recorded delay, `0`-based, precedes attempt `i + 2`), and
the 503 error is surfaced as the terminal failure. -/
theorem retry_bound_503 (m rd bm : Nat) (hm : 1 ≤ m) :
    executeWithRetry (α := Unit) m rd bm (fun _ => .error (.status 503)) 1 =
      { result := .error (.status 503), attempts := m,
        delays := (List.range (m - 1)).map (fun i => rd * bm ^ i) } := by
  have h : m = 1 + (m - 1) := by omega
  rw [h, executeWithRetry_const_retryable rd bm (.status 503) (by decide) (m - 1) 1 (by decide)]
  simp
  omega

/-- Witness for `retry_bound_503` at the source defaults
(`maxRetries = 3`, `retryDelay = 1000`, `backoffMultiplier = 2`):
three attempts, sleeps of 1000 ms then 2000 ms, terminal 503. -/
theorem retry_bound_503_witness :
    executeWithRetry (α := Unit) 3 1000 2 (fun _ => .error (.status 503)) 1 =
      { result := .error (.status 503), attempts := 3, delays := [1000, 2000] } := by
  rw [retry_bound_503 3 1000 2 (by decide)]
  rfl

/-! ### The composed REST error path

Every REST call reaches `executeWithRetry` through
`this.httpClient(requestConfig)`, and the response interceptor of
`setupInterceptors` replaces each rejection with
`this.handleHttpError(error)`.  `handleHttpError` returns a plain
`new Error(message)` in all three of its branches, so the object the
retry loop catches never has a `.response` property — regardless of the
HTTP status the server actually sent. -/

/-- The axios rejection as `handleHttpError` receives it: a response
with an error status, a request that got no response, or a setup
failure. -/
inductive AxiosFailure where
  | response (status : Nat) (message : String)
  | request (message : String)
  | setup (message : String)
deriving DecidableEq, Repr

/-- A JS `Error` object as `isRetryableError` inspects it: its message
and its `.response.status` when a `.response` property exists. -/
structure JsError where
  message : String
  response : Option Nat
deriving DecidableEq, Repr

/-- `PionexClient.handleHttpError`: each branch builds a plain
`new Error(...)` carrying only a message — the original `.response` is
not copied onto it. -/
def handleHttpError : AxiosFailure → JsError
  | .response status message =>
    { message := "Pionex API Error (" ++ toString status ++ "): " ++ message,
      response := none }
  | .request _ =>
    { message := "Pionex API Error: No response received from server",
      response := none }
  | .setup m =>
    { message := "Pionex API Error: " ++ m, response := none }

/-- The classification input `isRetryableError` sees for a JS error:
`!error.response` is the no-response case, otherwise
`error.response.status`. -/
def errorSeenByRetry (e : JsError) : HttpError :=
  match e.response with
  | none => .noResponse
  | some c => .status c

/-- C5 (code_bug): the claim — a 400 response is attempted exactly once
with no retry — is what the spec requires, but the composed code
violates it: the response interceptor has already replaced the axios
error with `handleHttpError`'s plain `Error`, which has no `.response`,
so `isRetryableError` classifies the 400 as a network error (retryable)
and the call whose every attempt is answered with HTTP 400 is attempted
`maxRetries` = 3 times, sleeping 1000 ms and 2000 ms, before the error
is surfaced. -/
theorem http400_retried_three_times :
    isRetryableError
        (errorSeenByRetry (handleHttpError (.response 400 "Bad Request"))) = true
    ∧ executeWithRetry (α := Unit) 3 1000 2
        (fun _ => .error (errorSeenByRetry (handleHttpError (.response 400 "Bad Request")))) 1 =
      { result := .error .noResponse, attempts := 3, delays := [1000, 2000] } := by
  constructor
  · rfl
  · have h := executeWithRetry_const_retryable (α := Unit) 1000 2 .noResponse rfl 2 1
      (by decide)
    simpa [errorSeenByRetry, handleHttpError] using h

/-! ## PionexClient WebSocket reconnect

`handleWebSocketReconnect` from `src/backend/src/index.js`: if
`wsReconnectAttempts >= maxReconnectAttempts`, emit
`wsReconnectFailed` and return (no timer scheduled); otherwise increment
`wsReconnectAttempts` and schedule `connectWebSocket` after
`reconnectDelay * wsReconnectAttempts` milliseconds.  The `open` handler
of `connectWebSocket` resets `wsReconnectAttempts` to `0` and emits
`wsConnected`; the `error` handler emits `wsError` without touching the
counter; the `message` handler never touches the counter. -/

/-- Result of one `handleWebSocketReconnect` call: the counter after the
call, the delay of the scheduled `connectWebSocket` timer (`none` when
nothing was scheduled), and whether `wsReconnectFailed` was emitted. -/
structure ReconnectStep where
  attempts : Nat
  scheduled : Option Nat
  reconnectFailed : Bool
deriving DecidableEq, Repr

/-- `PionexClient.handleWebSocketReconnect`, as a function of the
configuration and the current `wsReconnectAttempts` counter. -/
def handleWebSocketReconnect (maxReconnectAttempts reconnectDelay attempts : Nat) :
    ReconnectStep :=
  if maxReconnectAttempts ≤ attempts then
    { attempts := attempts, scheduled := none, reconnectFailed := true }
  else
    { attempts := attempts + 1,
      scheduled := some (reconnectDelay * (attempts + 1)),
      reconnectFailed := false }

/-- `n` consecutive close events starting from counter `a` (each close
handler calls `handleWebSocketReconnect`): final counter and the list of
per-close reconnect steps, in order. -/
def closeTrace (maxR rd a : Nat) : Nat → Nat × List ReconnectStep
  | 0 => (a, [])
  | n + 1 =>
    let s := handleWebSocketReconnect maxR rd a
    let rest := closeTrace maxR rd s.attempts n
    (rest.1, s :: rest.2)

/-- Helper: while the cap is not reached, each close increments the
counter and schedules a linear-backoff delay. -/
theorem closeTrace_below_cap (maxR rd : Nat) :
    ∀ n a, a + n ≤ maxR →
      closeTrace maxR rd a n =
        (a + n, (List.range n).map (fun k =>
          { attempts := a + k + 1, scheduled := some (rd * (a + k + 1)),
            reconnectFailed := false })) := by
  intro n
  induction n with
  | zero => intro a _; simp [closeTrace]
  | succ n ih =>
    intro a ha
    have hlt : ¬ maxR ≤ a := by omega
    rw [closeTrace]
    simp only [handleWebSocketReconnect, hlt, if_false]
    rw [ih (a + 1) (by omega)]
    simp only [Prod.mk.injEq]
    constructor
    · omega
    · rw [List.range_succ_eq_map, List.map_cons, List.map_map]
      congr 1
      apply List.map_congr_left
      intro k _
      simp only [Function.comp_apply]
      have h1 : a + 1 + k + 1 = a + (k + 1) + 1 := by omega
      rw [h1]

/-- C2: `maxReconnectAttempts` consecutive close events starting from a
fresh connection (counter 0) schedule reconnect delays
`reconnectDelay*1, reconnectDelay*2, ..., reconnectDelay*maxReconnectAttempts`
without emitting `wsReconnectFailed`; once the counter has reached
`maxReconnectAttempts`, a further close emits the terminal
`wsReconnectFailed` event and schedules no reconnect. -/
theorem reconnect_backoff_and_cap (maxR rd : Nat) :
    closeTrace maxR rd 0 maxR =
      (maxR, (List.range maxR).map (fun k =>
        { attempts := k + 1, scheduled := some (rd * (k + 1)),
          reconnectFailed := false }))
    ∧ handleWebSocketReconnect maxR rd maxR =
      { attempts := maxR, scheduled := none, reconnectFailed := true } := by
  constructor
  · rw [closeTrace_below_cap maxR rd maxR 0 (by omega)]
    simp
  · simp [handleWebSocketReconnect]

/-- The events of `connectWebSocket` that can touch the reconnect
counter: the socket's `open`, `close`, `error` and `message` handlers. -/
inductive WsEvent where
  | onOpen
  | onClose
  | onError
  | onMessage
deriving DecidableEq, Repr

/-- Effect of one socket event on the client, per the handlers installed
in `PionexClient.connectWebSocket`: the counter afterwards, any
scheduled reconnect delay, and the events emitted. -/
structure WsStepOut where
  wsReconnectAttempts : Nat
  scheduled : Option Nat
  emitted : List String
deriving DecidableEq, Repr

/-- One step of the `connectWebSocket` event handlers, as a function of
the configuration and the current `wsReconnectAttempts` counter. -/
def wsEventStep (maxR rd attempts : Nat) : WsEvent → WsStepOut
  | .onOpen =>
    { wsReconnectAttempts := 0, scheduled := none, emitted := ["wsConnected"] }
  | .onClose =>
    let r := handleWebSocketReconnect maxR rd attempts
    { wsReconnectAttempts := r.attempts, scheduled := r.scheduled,
      emitted :=
        if r.reconnectFailed then ["wsDisconnected", "wsReconnectFailed"]
        else ["wsDisconnected"] }
  | .onError =>
    { wsReconnectAttempts := attempts, scheduled := none, emitted := ["wsError"] }
  | .onMessage =>
    { wsReconnectAttempts := attempts, scheduled := none, emitted := [] }

/-- C7: the reconnect counter is reset to 0 exactly by the `open`
handler; every other event either leaves it unchanged or (for a close
that schedules a reconnect) increments it by exactly one; whenever a
reconnect is scheduled the counter has been incremented by exactly
one. -/
theorem reconnect_counter_discipline (maxR rd a : Nat) (e : WsEvent) :
    (wsEventStep maxR rd a .onOpen).wsReconnectAttempts = 0
    ∧ (e ≠ .onOpen →
        (wsEventStep maxR rd a e).wsReconnectAttempts = a
        ∨ (wsEventStep maxR rd a e).wsReconnectAttempts = a + 1)
    ∧ ((wsEventStep maxR rd a e).scheduled ≠ none →
        (wsEventStep maxR rd a e).wsReconnectAttempts = a + 1) := by
  refine ⟨rfl, ?_, ?_⟩
  · intro he
    cases e with
    | onOpen => exact absurd rfl he
    | onError => exact Or.inl rfl
    | onMessage => exact Or.inl rfl
    | onClose =>
      by_cases hc : maxR ≤ a
      · exact Or.inl (by simp [wsEventStep, handleWebSocketReconnect, hc])
      · exact Or.inr (by simp [wsEventStep, handleWebSocketReconnect, hc])
  · intro hs
    cases e with
    | onOpen => exact absurd rfl hs
    | onError => exact absurd rfl hs
    | onMessage => exact absurd rfl hs
    | onClose =>
      by_cases hc : maxR ≤ a
      · exact absurd (by simp [wsEventStep, handleWebSocketReconnect, hc]) hs
      · simp [wsEventStep, handleWebSocketReconnect, hc]

/-- Witness for `reconnect_counter_discipline` at the source defaults
(`maxReconnectAttempts = 5`, `reconnectDelay = 5000`) with counter 2 and
a close event: the open handler would reset to 0, and the close both
schedules a reconnect and increments the counter to exactly 3. -/
theorem reconnect_counter_discipline_witness :
    (wsEventStep 5 5000 2 .onOpen).wsReconnectAttempts = 0
    ∧ ((wsEventStep 5 5000 2 .onClose).wsReconnectAttempts = 2
        ∨ (wsEventStep 5 5000 2 .onClose).wsReconnectAttempts = 2 + 1)
    ∧ (wsEventStep 5 5000 2 .onClose).wsReconnectAttempts = 2 + 1 := by
  obtain ⟨h1, h2, h3⟩ := reconnect_counter_discipline 5 5000 2 .onClose
  exact ⟨h1, h2 (by decide), h3 (by decide)⟩

/-! ## TradingServer subscription hub

`TradingServer` keeps client sockets in `wsClients`; each socket `ws`
carries a `clientId`, a ready state and a lazily created
`ws.subscriptions` `Set` (absent until the first subscribe).
`handleSubscription` / `handleUnsubscription` destructure
`{channel, symbol}` from the message's `data` field (which throws when
`data` is `undefined` or `null`), and `broadcastToSubscribers` sends a
`data` message to every open, matching client. -/

/-- The `data` field of an inbound client message: absent (`undefined`),
`null` (both make the handler's destructuring throw), or an object with
possibly-missing `channel` / `symbol` fields. -/
inductive DataField where
  | undef
  | null
  | obj (channel symbol : Option String)
deriving DecidableEq, Repr

/-- JS template-string rendering of a possibly-undefined value. -/
def jsShow (o : Option String) : String := o.getD "undefined"

/-- Messages the server sends to one client. -/
inductive OutMsg where
  | connection (clientId : String)
  | subscribed (channel symbol : Option String) (subscription : String)
  | unsubscribed (channel symbol : Option String) (subscription : String)
  | pong
  | err (message : String)
  | data (channel symbol payload timestamp : String)
deriving DecidableEq, Repr

/-- One connected client socket as the hub sees it: its id, whether
`readyState === WebSocket.OPEN`, and its `subscriptions` set (`none`
until the first subscribe creates it). -/
structure Client where
  clientId : String
  isOpen : Bool
  subscriptions : Option (List String)
deriving DecidableEq, Repr

/-- `Set.prototype.add`: append the key when it is not yet present. -/
def setAdd (l : List String) (k : String) : List String :=
  if k ∈ l then l else l ++ [k]

/-- `Set.prototype.delete`: remove the key when present. -/
def setDelete (l : List String) (k : String) : List String :=
  l.filter (fun x => x ≠ k)

/-- `TradingServer.handleSubscription`: destructure `{channel, symbol}`
(throws on a missing/null `data`), create the `subscriptions` set if
absent, add `channel:symbol`, acknowledge with `subscribed`. -/
def handleSubscription (ws : Client) (data : DataField) :
    Except String (Client × List OutMsg) :=
  match data with
  | .undef => .error "TypeError"
  | .null => .error "TypeError"
  | .obj channel symbol =>
    let subs := ws.subscriptions.getD []
    let subscription := jsShow channel ++ ":" ++ jsShow symbol
    .ok ({ ws with subscriptions := some (setAdd subs subscription) },
      [.subscribed channel symbol subscription])

/-- `TradingServer.handleUnsubscription`: destructure `{channel, symbol}`
(throws on a missing/null `data`); when a `subscriptions` set exists,
delete `channel:symbol` from it and acknowledge with `unsubscribed`;
when the session has never subscribed, do nothing at all. -/
def handleUnsubscription (ws : Client) (data : DataField) :
    Except String (Client × List OutMsg) :=
  match data with
  | .undef => .error "TypeError"
  | .null => .error "TypeError"
  | .obj channel symbol =>
    match ws.subscriptions with
    | none => .ok (ws, [])
    | some subs =>
      let subscription := jsShow channel ++ ":" ++ jsShow symbol
      .ok ({ ws with subscriptions := some (setDelete subs subscription) },
        [.unsubscribed channel symbol subscription])

/-- `TradingServer.handleWebSocketMessage`: dispatch on the message
`type`; unknown types (including a missing `type`) get an `error`
reply naming the type. -/
def handleWebSocketMessage (ws : Client) (ty : Option String) (data : DataField) :
    Except String (Client × List OutMsg) :=
  if ty = some "subscribe" then handleSubscription ws data
  else if ty = some "unsubscribe" then handleUnsubscription ws data
  else if ty = some "ping" then .ok (ws, [.pong])
  else .ok (ws, [.err ("Unknown message type: " ++ jsShow ty)])

/-- An inbound client frame as the `message` handler sees it: either
`JSON.parse` throws, or it yields a value with a `type` and a `data`
field. -/
inductive RawMsg where
  | badJson
  | json (ty : Option String) (data : DataField)
deriving DecidableEq, Repr

/-- The `ws.on('message')` callback of `TradingServer.setupWebSocket`:
parse and dispatch inside a try/catch whose catch replies
`error: Invalid JSON message`; the catch also absorbs any exception the
dispatch itself throws. -/
def onMessage (ws : Client) (raw : RawMsg) : Client × List OutMsg :=
  match raw with
  | .badJson => (ws, [.err "Invalid JSON message"])
  | .json ty data =>
    match handleWebSocketMessage ws ty data with
    | .ok r => r
    | .error _ => (ws, [.err "Invalid JSON message"])

/-- The send condition of `TradingServer.broadcastToSubscribers`:
`ws.readyState === OPEN && ws.subscriptions && ws.subscriptions.has(key)`. -/
def wantsKey (ws : Client) (key : String) : Bool :=
  ws.isOpen &&
    (match ws.subscriptions with
     | some subs => decide (key ∈ subs)
     | none => false)

/-- `TradingServer.broadcastToSubscribers`: for each registered client,
the list of messages sent to it by one broadcast. -/
def broadcastToSubscribers (clients : List Client)
    (channel symbol payload timestamp : String) : List (Client × List OutMsg) :=
  clients.map (fun ws =>
    (ws, if wantsKey ws (channel ++ ":" ++ symbol)
      then [OutMsg.data channel symbol payload timestamp]
      else []))

theorem wantsKey_iff (ws : Client) (k : String) :
    wantsKey ws k = true ↔ (ws.isOpen = true ∧ k ∈ ws.subscriptions.getD []) := by
  cases hsub : ws.subscriptions <;> simp [wantsKey, hsub]

/-- C4: one broadcast delivers the `data` message to a registered
session exactly when its key set contains `channel:symbol` and its
socket is open (a session that never subscribed has the empty key set);
a session whose socket is closed is never sent to. -/
theorem broadcast_fanout (clients : List Client)
    (channel symbol payload ts : String) (ws : Client) (hws : ws ∈ clients) :
    ((ws, [OutMsg.data channel symbol payload ts]) ∈
        broadcastToSubscribers clients channel symbol payload ts
      ↔ (ws.isOpen = true ∧ (channel ++ ":" ++ symbol) ∈ ws.subscriptions.getD []))
    ∧ (ws.isOpen = false →
        (ws, [OutMsg.data channel symbol payload ts]) ∉
          broadcastToSubscribers clients channel symbol payload ts
        ∧ (ws, ([] : List OutMsg)) ∈
            broadcastToSubscribers clients channel symbol payload ts) := by
  constructor
  · constructor
    · intro hmem
      rw [broadcastToSubscribers, List.mem_map] at hmem
      obtain ⟨ws', _, heq⟩ := hmem
      rw [Prod.mk.injEq] at heq
      obtain ⟨hws', hmsgs⟩ := heq
      rw [hws'] at hmsgs
      by_cases hw : wantsKey ws (channel ++ ":" ++ symbol) = true
      · exact (wantsKey_iff ws _).mp hw
      · rw [if_neg (by simp [hw])] at hmsgs
        exact absurd hmsgs (by simp)
    · intro hcond
      rw [broadcastToSubscribers, List.mem_map]
      exact ⟨ws, hws, by rw [if_pos ((wantsKey_iff ws _).mpr hcond)]⟩
  · intro hclosed
    constructor
    · intro hmem
      rw [broadcastToSubscribers, List.mem_map] at hmem
      obtain ⟨ws', _, heq⟩ := hmem
      rw [Prod.mk.injEq] at heq
      obtain ⟨hws', hmsgs⟩ := heq
      rw [hws'] at hmsgs
      by_cases hw : wantsKey ws (channel ++ ":" ++ symbol) = true
      · have := (wantsKey_iff ws _).mp hw
        rw [hclosed] at this
        exact absurd this.1 (by simp)
      · rw [if_neg (by simp [hw])] at hmsgs
        exact absurd hmsgs (by simp)
    · rw [broadcastToSubscribers, List.mem_map]
      refine ⟨ws, hws, ?_⟩
      have hw : wantsKey ws (channel ++ ":" ++ symbol) = false := by
        simp [wantsKey, hclosed]
      rw [if_neg (by simp [hw])]

/-- Witness for `broadcast_fanout`: with session A subscribed to
`ticker:BTCUSDT` (open) and session B subscribed to `ticker:ETHUSDT`,
broadcasting `ticker:BTCUSDT` delivers to A. -/
theorem broadcast_fanout_witness :
    ({ clientId := "A", isOpen := true,
       subscriptions := some ["ticker:BTCUSDT"] : Client },
      [OutMsg.data "ticker" "BTCUSDT" "p" "t"]) ∈
      broadcastToSubscribers
        [{ clientId := "A", isOpen := true, subscriptions := some ["ticker:BTCUSDT"] },
         { clientId := "B", isOpen := true, subscriptions := some ["ticker:ETHUSDT"] }]
        "ticker" "BTCUSDT" "p" "t" := by
  have h := broadcast_fanout
    [{ clientId := "A", isOpen := true, subscriptions := some ["ticker:BTCUSDT"] },
     { clientId := "B", isOpen := true, subscriptions := some ["ticker:ETHUSDT"] }]
    "ticker" "BTCUSDT" "p" "t"
    { clientId := "A", isOpen := true, subscriptions := some ["ticker:BTCUSDT"] }
    (by simp)
  exact h.1.mpr (by constructor <;> simp)

theorem mem_setAdd_self (l : List String) (k : String) : k ∈ setAdd l k := by
  unfold setAdd
  split
  · assumption
  · simp

theorem setAdd_of_mem {l : List String} {k : String} (h : k ∈ l) : setAdd l k = l := by
  simp [setAdd, h]

theorem setAdd_nodup {l : List String} {k : String} (h : l.Nodup) :
    (setAdd l k).Nodup := by
  unfold setAdd
  split
  · exact h
  · simp_all [List.nodup_append]

theorem setDelete_of_not_mem {l : List String} {k : String} (h : k ∉ l) :
    setDelete l k = l := by
  rw [setDelete, List.filter_eq_self]
  intro a ha
  have hne : a ≠ k := fun heq => h (heq ▸ ha)
  simp [hne]

/-- C6: subscribing twice to the same `(channel, symbol)` leaves exactly
one `channel:symbol` entry in the session's key set (the second add is a
no-op on the set), and unsubscribing a key that is not in the set does
not throw and leaves the whole set unchanged. -/
theorem subscription_idempotent_unsub_noop (ws : Client) (c s : String)
    (hnd : (ws.subscriptions.getD []).Nodup) :
    ∃ ws1 out1 ws2 out2,
      handleSubscription ws (.obj (some c) (some s)) = .ok (ws1, out1)
      ∧ handleSubscription ws1 (.obj (some c) (some s)) = .ok (ws2, out2)
      ∧ ws2.subscriptions = ws1.subscriptions
      ∧ (ws1.subscriptions.getD []).count (c ++ ":" ++ s) = 1
      ∧ (∀ l, ws.subscriptions = some l → (c ++ ":" ++ s) ∉ l →
          ∃ ws' out,
            handleUnsubscription ws (.obj (some c) (some s)) = .ok (ws', out)
            ∧ ws'.subscriptions = some l) := by
  refine ⟨_, _, _, _, rfl, rfl, ?_, ?_, ?_⟩
  · show some (setAdd (setAdd (ws.subscriptions.getD []) _) _) = _
    rw [setAdd_of_mem (mem_setAdd_self _ _)]
  · show (setAdd (ws.subscriptions.getD []) _).count _ = 1
    exact List.count_eq_one_of_mem (setAdd_nodup hnd) (mem_setAdd_self _ _)
  · intro l hl hk
    simp only [handleUnsubscription, hl]
    refine ⟨_, _, rfl, ?_⟩
    show some (setDelete l _) = some l
    rw [setDelete_of_not_mem]
    exact hk

/-- Witness for `subscription_idempotent_unsub_noop` on a session that
already holds the unrelated key `a:b`: two subscribes to
`(ticker, BTCUSDT)` leave one `ticker:BTCUSDT` entry, and unsubscribing
the absent key leaves the set untouched. -/
theorem subscription_idempotent_unsub_noop_witness :
    ∃ ws1 out1 ws2 out2,
      handleSubscription
          { clientId := "w", isOpen := true, subscriptions := some ["a:b"] }
          (.obj (some "ticker") (some "BTCUSDT")) = .ok (ws1, out1)
      ∧ handleSubscription ws1 (.obj (some "ticker") (some "BTCUSDT")) = .ok (ws2, out2)
      ∧ ws2.subscriptions = ws1.subscriptions
      ∧ (ws1.subscriptions.getD []).count ("ticker" ++ ":" ++ "BTCUSDT") = 1
      ∧ (∀ l, (some ["a:b"] : Option (List String)) = some l →
          ("ticker" ++ ":" ++ "BTCUSDT") ∉ l →
          ∃ ws' out,
            handleUnsubscription
                { clientId := "w", isOpen := true, subscriptions := some ["a:b"] }
                (.obj (some "ticker") (some "BTCUSDT")) = .ok (ws', out)
            ∧ ws'.subscriptions = some l) :=
  subscription_idempotent_unsub_noop
    { clientId := "w", isOpen := true, subscriptions := some ["a:b"] }
    "ticker" "BTCUSDT" (by decide)

/-- C9 counterexample: a session that has never subscribed (its
`subscriptions` set was never created) sends an unsubscribe; the handler
does nothing and sends no `unsubscribed` acknowledgement (empty reply
list), contradicting "is still acknowledged". -/
theorem unsubscribe_never_subscribed_counterexample :
    handleUnsubscription
        { clientId := "c1", isOpen := true, subscriptions := none }
        (.obj (some "ticker") (some "BTCUSDT"))
      = .ok ({ clientId := "c1", isOpen := true, subscriptions := none },
             ([] : List OutMsg)) := rfl

/-- C9 (amended): when the session has a subscription set, unsubscribe
removes `channel:symbol` if present and acknowledges with
`unsubscribed`; removing an absent key from an existing set leaves the
set unchanged (a no-op, not an error) and is still acknowledged; a
session that has never subscribed is silently ignored: no removal, no
acknowledgement, no error. -/
theorem unsubscribe_ack_behavior (ws : Client) (c s : String) :
    (∀ l, ws.subscriptions = some l →
      handleUnsubscription ws (.obj (some c) (some s)) =
        .ok ({ ws with subscriptions := some (setDelete l (c ++ ":" ++ s)) },
          [.unsubscribed (some c) (some s) (c ++ ":" ++ s)]))
    ∧ (ws.subscriptions = none →
        handleUnsubscription ws (.obj (some c) (some s)) = .ok (ws, []))
    ∧ (∀ l, (c ++ ":" ++ s) ∉ l → setDelete l (c ++ ":" ++ s) = l) := by
  refine ⟨?_, ?_, ?_⟩
  · intro l hl
    simp [handleUnsubscription, hl, jsShow]
  · intro hl
    simp [handleUnsubscription, hl]
  · intro l hk
    exact setDelete_of_not_mem hk

/-- Witness for `unsubscribe_ack_behavior` on a session holding exactly
`a:b`: unsubscribing the absent key `ticker:BTCUSDT` is acknowledged and
leaves the set unchanged. -/
theorem unsubscribe_ack_behavior_witness :
    handleUnsubscription
        { clientId := "w", isOpen := true, subscriptions := some ["a:b"] }
        (.obj (some "ticker") (some "BTCUSDT")) =
      .ok ({ clientId := "w", isOpen := true,
             subscriptions := some (setDelete ["a:b"] ("ticker" ++ ":" ++ "BTCUSDT")) },
        [.unsubscribed (some "ticker") (some "BTCUSDT") ("ticker" ++ ":" ++ "BTCUSDT")])
    ∧ setDelete ["a:b"] ("ticker" ++ ":" ++ "BTCUSDT") = ["a:b"] := by
  obtain ⟨h1, _, h3⟩ := unsubscribe_ack_behavior
    { clientId := "w", isOpen := true, subscriptions := some ["a:b"] }
    "ticker" "BTCUSDT"
  exact ⟨h1 ["a:b"] rfl, h3 ["a:b"] (by decide)⟩

theorem handleWebSocketMessage_preserves (ws : Client) (ty : Option String)
    (d : DataField) (r : Client × List OutMsg)
    (h : handleWebSocketMessage ws ty d = .ok r) :
    r.1.isOpen = ws.isOpen ∧ r.1.clientId = ws.clientId := by
  rw [handleWebSocketMessage] at h
  split_ifs at h
  · cases d with
    | undef => exact absurd h (by simp [handleSubscription])
    | null => exact absurd h (by simp [handleSubscription])
    | obj c s =>
      simp only [handleSubscription, Except.ok.injEq] at h
      rw [← h]
      exact ⟨rfl, rfl⟩
  · cases d with
    | undef => exact absurd h (by simp [handleUnsubscription])
    | null => exact absurd h (by simp [handleUnsubscription])
    | obj c s =>
      cases hsub : ws.subscriptions with
      | none =>
        simp only [handleUnsubscription, hsub, Except.ok.injEq] at h
        rw [← h]
        exact ⟨rfl, rfl⟩
      | some l =>
        simp only [handleUnsubscription, hsub, Except.ok.injEq] at h
        rw [← h]
        exact ⟨rfl, rfl⟩
  · simp only [Except.ok.injEq] at h
    rw [← h]
    exact ⟨rfl, rfl⟩
  · simp only [Except.ok.injEq] at h
    rw [← h]
    exact ⟨rfl, rfl⟩

/-- C10: an inbound frame that is not JSON, or is JSON with an unknown
`type`, or is a subscribe/unsubscribe whose handling throws (its `data`
missing or null) gets an `error` reply and leaves the session exactly as
it was; and no frame at all changes the socket's open state or identity
(the handler is total: every exception is caught inside it). -/
theorem message_handler_safety (ws : Client) (raw : RawMsg)
    (hbad :
      raw = .badJson
      ∨ (∃ ty d, raw = .json ty d
          ∧ ty ≠ some "subscribe" ∧ ty ≠ some "unsubscribe" ∧ ty ≠ some "ping")
      ∨ (∃ ty d, raw = .json ty d
          ∧ (ty = some "subscribe" ∨ ty = some "unsubscribe")
          ∧ (d = .undef ∨ d = .null))) :
    (∃ m, onMessage ws raw = (ws, [OutMsg.err m]))
    ∧ (∀ raw' : RawMsg, (onMessage ws raw').1.isOpen = ws.isOpen
        ∧ (onMessage ws raw').1.clientId = ws.clientId) := by
  constructor
  · rcases hbad with hb | ⟨ty, d, hj, h1, h2, h3⟩ | ⟨ty, d, hj, hty, hd⟩
    · exact ⟨"Invalid JSON message", by rw [hb]; rfl⟩
    · refine ⟨"Unknown message type: " ++ jsShow ty, ?_⟩
      rw [hj]
      simp [onMessage, handleWebSocketMessage, h1, h2, h3]
    · refine ⟨"Invalid JSON message", ?_⟩
      rw [hj]
      rcases hty with rfl | rfl <;> rcases hd with rfl | rfl <;>
        simp [onMessage, handleWebSocketMessage, handleSubscription,
          handleUnsubscription]
  · intro raw'
    cases raw' with
    | badJson => exact ⟨rfl, rfl⟩
    | json ty d =>
      rw [onMessage]
      cases hr : handleWebSocketMessage ws ty d with
      | ok r => exact handleWebSocketMessage_preserves ws ty d r hr
      | error e => exact ⟨rfl, rfl⟩

/-- Witness for `message_handler_safety`: a subscribe frame with no
`data` object gets an `error` reply and the session is untouched. -/
theorem message_handler_safety_witness :
    (∃ m, onMessage
        { clientId := "w", isOpen := true, subscriptions := none }
        (.json (some "subscribe") .undef) =
      ({ clientId := "w", isOpen := true, subscriptions := none }, [OutMsg.err m]))
    ∧ (∀ raw' : RawMsg,
        (onMessage { clientId := "w", isOpen := true, subscriptions := none } raw').1.isOpen
          = true
        ∧ (onMessage { clientId := "w", isOpen := true, subscriptions := none } raw').1.clientId
          = "w") :=
  message_handler_safety
    { clientId := "w", isOpen := true, subscriptions := none }
    (.json (some "subscribe") .undef)
    (Or.inr (Or.inr ⟨some "subscribe", .undef, rfl, Or.inl rfl, Or.inl rfl⟩))

/-! ## PionexClient request signing

`generateSignature(method, url, data, timestamp)` builds the canonical
string `method.toUpperCase() + url + (data ? JSON.stringify(data) : '') +
timestamp` and returns its hex HMAC-SHA256 under the secret key.  The
request interceptor of `setupInterceptors` stamps every request with
`requiresAuth !== false` with the headers `PIONEX-KEY`,
`PIONEX-SIGNATURE` and `PIONEX-TIMESTAMP`, computing the timestamp at
call time.  The HMAC primitive (`crypto.createHmac(...).digest('hex')`)
and `JSON.stringify` live outside the repository and are passed in as
function parameters. -/

/-- `PionexClient.generateSignature`.  `hmacSha256Hex key msg` stands
for the external hex-encoded HMAC-SHA256; `stringify` for
`JSON.stringify` on the request body type `β`; an absent body
contributes the empty string. -/
def generateSignature (hmacSha256Hex : String → String → String)
    (stringify : β → String) (secretKey method url : String)
    (data : Option β) (timestamp : Nat) : String :=
  hmacSha256Hex secretKey
    (method.toUpper ++ url ++
      (match data with | some d => stringify d | none => "") ++
      toString timestamp)

/-- The authentication headers the request interceptor attaches. -/
structure AuthHeaders where
  pionexKey : String
  pionexSignature : String
  pionexTimestamp : Nat
deriving DecidableEq, Repr

/-- One outgoing request configuration as the interceptor sees it. -/
structure RequestConfig (β : Type) where
  method : String
  url : String
  data : Option β
  requiresAuth : Bool

/-- The request interceptor of `PionexClient.setupInterceptors`: when
`config.requiresAuth !== false`, take the current time, compute the
signature and attach the three headers; otherwise attach nothing. -/
def requestInterceptor (hmacSha256Hex : String → String → String)
    (stringify : β → String) (apiKey secretKey : String)
    (cfg : RequestConfig β) (now : Nat) : Option AuthHeaders :=
  if cfg.requiresAuth then
    some { pionexKey := apiKey,
           pionexSignature :=
             generateSignature hmacSha256Hex stringify secretKey
               cfg.method cfg.url cfg.data now,
           pionexTimestamp := now }
  else none

/-- C3: every authenticated request carries headers holding the API key,
the timestamp, and the hex HMAC-SHA256 of the canonical string
`UPPER(method) ++ path ++ JSON(body) ++ timestamp`; and the signature is
a pure function of method, path, body and timestamp: equal inputs give
an identical signature on repeated calls. -/
theorem signature_scheme_and_determinism
    (hmac : String → String → String) (stringify : β → String)
    (apiKey secretKey : String) (cfg : RequestConfig β) (now : Nat)
    (hauth : cfg.requiresAuth = true) :
    (requestInterceptor hmac stringify apiKey secretKey cfg now =
      some { pionexKey := apiKey,
             pionexSignature :=
               hmac secretKey
                 (cfg.method.toUpper ++ cfg.url ++
                   (match cfg.data with | some d => stringify d | none => "") ++
                   toString now),
             pionexTimestamp := now })
    ∧ (∀ m₁ u₁ b₁ t₁ m₂ u₂ b₂ t₂, m₁ = m₂ → u₁ = u₂ → b₁ = b₂ → t₁ = t₂ →
        generateSignature hmac stringify secretKey m₁ u₁ b₁ t₁ =
          generateSignature hmac stringify secretKey m₂ u₂ b₂ t₂) := by
  constructor
  · rw [requestInterceptor, if_pos hauth]
    rfl
  · intro m₁ u₁ b₁ t₁ m₂ u₂ b₂ t₂ hm hu hb ht
    rw [hm, hu, hb, ht]

/-- Witness for `signature_scheme_and_determinism` on a concrete POST:
the interceptor emits exactly the specified headers, and the same inputs
give the same signature. -/
theorem signature_scheme_and_determinism_witness :
    (requestInterceptor (fun k m => k ++ "|" ++ m) (fun (b : String) => b)
        "AK" "SK"
        { method := "post", url := "/v1/trade/orders",
          data := some "symbol=BTC", requiresAuth := true } 1700000000000 =
      some { pionexKey := "AK",
             pionexSignature :=
               (fun (k m : String) => k ++ "|" ++ m) "SK"
                 ("post".toUpper ++ "/v1/trade/orders" ++
                   "symbol=BTC" ++ toString 1700000000000),
             pionexTimestamp := 1700000000000 })
    ∧ (∀ m₁ u₁ b₁ t₁ m₂ u₂ b₂ t₂, m₁ = m₂ → u₁ = u₂ → b₁ = b₂ → t₁ = t₂ →
        generateSignature (fun k m => k ++ "|" ++ m) (fun (b : String) => b)
          "SK" m₁ u₁ b₁ t₁ =
        generateSignature (fun k m => k ++ "|" ++ m) (fun (b : String) => b)
          "SK" m₂ u₂ b₂ t₂) :=
  signature_scheme_and_determinism
    (fun k m => k ++ "|" ++ m) (fun (b : String) => b) "AK" "SK"
    { method := "post", url := "/v1/trade/orders",
      data := some "symbol=BTC", requiresAuth := true }
    1700000000000 rfl

/-! ## PionexClient outbound stream frames

`subscribeToTicker`, `subscribeToKlines` and `unsubscribe` throw
`WebSocket not connected` unless the socket exists and its
`readyState` is `OPEN`; otherwise they send one JSON frame
`{method, params, id: Date.now()}`. -/

/-- An outbound exchange-stream frame. -/
structure WsFrame where
  method : String
  params : List String
  id : Nat
deriving DecidableEq, Repr

/-- The `streams` argument of `PionexClient.unsubscribe`: a single
stream id or an array of them (`Array.isArray` dispatch). -/
inductive StreamsArg where
  | one (s : String)
  | many (l : List String)
deriving DecidableEq, Repr

/-- `PionexClient.subscribeToTicker`.  `wsOpen` is
`this.ws && this.ws.readyState === WebSocket.OPEN`; `now` is
`Date.now()`. -/
def subscribeToTicker (wsOpen : Bool) (symbol : String) (now : Nat) :
    Except String WsFrame :=
  if !wsOpen then .error "WebSocket not connected"
  else .ok { method := "SUBSCRIBE", params := [symbol.toLower ++ "@ticker"], id := now }

/-- `PionexClient.subscribeToKlines`. -/
def subscribeToKlines (wsOpen : Bool) (symbol interval : String) (now : Nat) :
    Except String WsFrame :=
  if !wsOpen then .error "WebSocket not connected"
  else .ok { method := "SUBSCRIBE",
             params := [symbol.toLower ++ "@kline_" ++ interval], id := now }

/-- `PionexClient.unsubscribe`. -/
def wsUnsubscribe (wsOpen : Bool) (streams : StreamsArg) (now : Nat) :
    Except String WsFrame :=
  if !wsOpen then .error "WebSocket not connected"
  else .ok { method := "UNSUBSCRIBE",
             params := (match streams with | .many l => l | .one s => [s]),
             id := now }

/-- C8: sending a subscribe or unsubscribe while the socket is not open
throws a terminal `WebSocket not connected` error to the caller (nothing
is queued: no frame is produced); when the socket is open, the frame is
`{method: SUBSCRIBE | UNSUBSCRIBE, params, id}` whose subscribe stream
ids are the lower-cased `symbol@channel`. -/
theorem outbound_frames (symbol interval : String) (streams : StreamsArg)
    (now : Nat) (wsOpen : Bool) :
    (wsOpen = false →
      subscribeToTicker wsOpen symbol now = .error "WebSocket not connected"
      ∧ subscribeToKlines wsOpen symbol interval now = .error "WebSocket not connected"
      ∧ wsUnsubscribe wsOpen streams now = .error "WebSocket not connected")
    ∧ (wsOpen = true →
      subscribeToTicker wsOpen symbol now =
        .ok { method := "SUBSCRIBE", params := [symbol.toLower ++ "@ticker"], id := now }
      ∧ subscribeToKlines wsOpen symbol interval now =
        .ok { method := "SUBSCRIBE",
              params := [symbol.toLower ++ "@kline_" ++ interval], id := now }
      ∧ wsUnsubscribe wsOpen streams now =
        .ok { method := "UNSUBSCRIBE",
              params := (match streams with | .many l => l | .one s => [s]),
              id := now }) := by
  constructor
  · rintro rfl
    exact ⟨rfl, rfl, rfl⟩
  · rintro rfl
    exact ⟨rfl, rfl, rfl⟩

/-- Witness for `outbound_frames`: with the socket open, subscribing to
`BTCUSDT` ticker and 1h klines produces lower-cased stream ids, and with
it closed every send throws. -/
theorem outbound_frames_witness :
    (subscribeToTicker false "BTCUSDT" 7 = .error "WebSocket not connected"
      ∧ subscribeToKlines false "BTCUSDT" "1h" 7 = .error "WebSocket not connected"
      ∧ wsUnsubscribe false (.one "btcusdt@ticker") 7 = .error "WebSocket not connected")
    ∧ (subscribeToTicker true "BTCUSDT" 7 =
        .ok { method := "SUBSCRIBE", params := ["BTCUSDT".toLower ++ "@ticker"], id := 7 }
      ∧ subscribeToKlines true "BTCUSDT" "1h" 7 =
        .ok { method := "SUBSCRIBE",
              params := ["BTCUSDT".toLower ++ "@kline_" ++ "1h"], id := 7 }
      ∧ wsUnsubscribe true (.one "btcusdt@ticker") 7 =
        .ok { method := "UNSUBSCRIBE", params := ["btcusdt@ticker"], id := 7 }) := by
  have h := outbound_frames "BTCUSDT" "1h" (.one "btcusdt@ticker") 7
  exact ⟨(h false).1 rfl, (h true).2 rfl⟩
